import Mathlib

set_option linter.unusedVariables false
set_option maxRecDepth 8000

/-!  Verification of the Chatsy client-side pipeline.

The definitions below are shallow embeddings of the JavaScript sources:
`src/background/privacy-manager.js`, `src/background/service-worker.js`,
the API manager, the message detector, the content script and the
WhatsApp platform adapter.  Machine integers are modelled as `Int` with
explicit reduction modulo 2^32 where JavaScript coerces to 32-bit
integers; strings are Lean `String`s (JavaScript `charCodeAt` UTF-16
code units coincide with Lean code points on the Basic Multilingual
Plane, which covers every character the embedded code manipulates
except the emoji suffixes, which are never hashed).  -/

/-! ### Generic list/string helpers (JS `String.prototype.includes` etc.) -/

/-- Boolean test that `p` occurs at the head of `l`. -/
def leadsWith : List Char → List Char → Bool
  | [], _ => true
  | _ :: _, [] => false
  | p :: ps, c :: cs => p == c && leadsWith ps cs

/-- Boolean test that `needle` occurs somewhere inside `hay`
(JavaScript `hay.includes(needle)`). -/
def hasSub : List Char → List Char → Bool
  | [], needle => needle.isEmpty
  | c :: cs, needle => leadsWith needle (c :: cs) || hasSub cs needle

/-- JavaScript `s.includes(sub)`. -/
def strIncludes (s sub : String) : Bool :=
  hasSub s.toList sub.toList

/-- JavaScript `s.endsWith(suf)`. -/
def strEndsWith (s suf : String) : Bool :=
  leadsWith suf.toList.reverse s.toList.reverse

/-- JavaScript `String.prototype.trim` (whitespace stripped from both ends). -/
def jsTrim (s : String) : String :=
  String.mk (((s.toList.dropWhile Char.isWhitespace).reverse.dropWhile
    Char.isWhitespace).reverse)

/-- JavaScript `s.toLowerCase()` on the ASCII range used by the sources. -/
def jsToLower (s : String) : String :=
  String.mk (s.toList.map Char.toLower)

/-! ### 32-bit rolling hash

`PrivacyManager.simpleHash`, `WhatsAppAdapter.hashString` and
`MessageDetector.hashString` share one body:

    hash = ((hash << 5) - hash) + char; hash = hash & hash;
    return Math.abs(hash).toString(16);

`hash << 5` coerces to a signed 32-bit integer, as does `hash & hash`. -/

/-- JavaScript `ToInt32`: reduce an integer into `[-2^31, 2^31)`. -/
def toInt32 (x : Int) : Int :=
  (x + 2 ^ 31) % 2 ^ 32 - 2 ^ 31

/-- One step of the rolling hash: `hash = (((hash << 5) - hash) + char) & -1`. -/
def hashStep (h : Int) (c : Nat) : Int :=
  toInt32 (toInt32 (h * 32) - h + c)

/-- Fold of `hashStep` over the code units of the input. -/
def hashLoop : Int → List Nat → Int
  | h, [] => h
  | h, c :: cs => hashLoop (hashStep h c) cs

/-- Lower-case hexadecimal digit (JavaScript `Number.prototype.toString(16)`). -/
def hexDigit (n : Nat) : Char :=
  if n < 10 then Char.ofNat (48 + n) else Char.ofNat (87 + n)

/-- Fuel-driven most-significant-first hexadecimal conversion. -/
def natToHexCore : Nat → Nat → List Char → List Char
  | 0, _, acc => acc
  | fuel + 1, n, acc =>
    if n < 16 then hexDigit n :: acc
    else natToHexCore fuel (n / 16) (hexDigit (n % 16) :: acc)

/-- JavaScript `n.toString(16)` for a non-negative number. -/
def natToHex (n : Nat) : String :=
  String.mk (natToHexCore (n + 1) n [])

/-- The shared 32-bit rolling hash
(`PrivacyManager.simpleHash` / `WhatsAppAdapter.hashString` /
`MessageDetector.hashString`).  The empty string short-circuits to
`hash.toString()` with `hash = 0`, i.e. `"0"`. -/
def hashString (s : String) : String :=
  if s.toList.isEmpty then "0"
  else natToHex (hashLoop 0 (s.toList.map Char.toNat)).natAbs

/-- `PrivacyManager.simpleHash` is textually the same function. -/
def simpleHash (s : String) : String := hashString s

/-! ### APIManager (`api-manager.js`)

`APIManager.checkRateLimit` manipulates `this.requestCount`, a field the
constructor initialises to the *number* `0`:

    this.requestCount = this.requestCount.filter(time => time > oneMinuteAgo).length;
    if (this.requestCount >= this.maxRequestsPerMinute) {
      const oldestRequest = Math.min(...this.requestCount); ... }
    this.requestCount.push(now);

JavaScript values flowing through the field are either a number or an
array, modelled by `JSVal`; property accesses that throw `TypeError`
are modelled by `Except.error`. -/

/-- Dynamic value stored in `APIManager.requestCount`. -/
inductive JSVal
  | num (n : Int)
  | arr (xs : List Int)
deriving DecidableEq

/-- `APIManager.checkRateLimit`, translated step by step.  `rc` is the
current value of `this.requestCount`, `now` is `Date.now()`.  On an
array, the first statement reassigns the field to
`filter(...).length`, a *number*; after that, either the spread
`Math.min(...this.requestCount)` (when the count is at budget) or
`this.requestCount.push(now)` is applied to that number and throws a
`TypeError`.  On a number, `.filter` is already undefined. -/
def checkRateLimit (rc : JSVal) (now : Int) : Except String JSVal :=
  match rc with
  | JSVal.num _ => Except.error "TypeError: this.requestCount.filter is not a function"
  | JSVal.arr xs =>
    let count := (xs.filter (fun t => decide (t > now - 60 * 1000))).length
    if 60 ≤ count then
      Except.error "TypeError: Math.min spread applied to a Number"
    else
      Except.error "TypeError: this.requestCount.push is not a function"

/-- `APIManager.constructor` sets `this.requestCount = 0`. -/
def initialRequestCount : JSVal := JSVal.num 0

/-- Outcome of one provider `fetch`: non-2xx status, 2xx with a body
`response.json()` cannot parse, or 2xx with a parsed body whose
generated-text field is `gen` (`none` when the path
`result[0].generated_text` resp. `candidates[0].content` is absent). -/
inductive HttpOutcome
  | notOk
  | malformed
  | okGen (gen : Option String)

/-- Truncation step shared by both response processors:
`if (response.length > 100) response = response.substring(0, 100) + '...'`. -/
def truncate100 (s : String) : String :=
  if 100 < s.toList.length then String.mk (s.toList.take 100) ++ "..." else s

/-- `response.replace(/^Response:\s*/i, '')` in `processHFResponse`. -/
def stripResponseLead (s : String) : String :=
  let cs := s.toList
  if (cs.take 9).map Char.toLower == "response:".toList then
    String.mk ((cs.drop 9).dropWhile Char.isWhitespace)
  else s

/-- `APIManager.processHFResponse`: requires a truthy
`result[0].generated_text` (an empty string is falsy and yields
`null`), then strips the `Response:` lead, trims and truncates. -/
def processHFResponse (gen : Option String) : Option String :=
  match gen with
  | none => none
  | some g =>
    if g == "" then none
    else some (truncate100 (jsTrim (stripResponseLead g)))

/-- `APIManager.processGeminiResponse`: requires the candidate path to be
present, then trims and truncates `candidates[0].content.parts[0].text`. -/
def processGeminiResponse (text : Option String) : Option String :=
  match text with
  | none => none
  | some t => some (truncate100 (jsTrim t))

/-- `APIManager.tryHuggingFace`: `null` without an API key; a non-2xx
status returns `null`; a JSON parse failure is caught and returns
`null`; otherwise the parsed body is post-processed. -/
def tryHuggingFace (hasKey : Bool) (out : HttpOutcome) : Option String :=
  if hasKey then
    match out with
    | HttpOutcome.notOk => none
    | HttpOutcome.malformed => none
    | HttpOutcome.okGen g => processHFResponse g
  else none

/-- `APIManager.tryGoogleGemini`, same failure policy as HuggingFace. -/
def tryGoogleGemini (hasKey : Bool) (out : HttpOutcome) : Option String :=
  if hasKey then
    match out with
    | HttpOutcome.notOk => none
    | HttpOutcome.malformed => none
    | HttpOutcome.okGen g => processGeminiResponse g
  else none

/-- `APIManager.getRandomResponse`: `responses[Math.floor(Math.random() *
responses.length)]`; the random draw is exposed as the seed `r`. -/
def getRandomResponse (responses : List String) (r : Nat) : String :=
  responses.getD (r % responses.length) ""

/-- `APIManager.generateLocalResponse`: keyword buckets over the
lower-cased message, then a length-based bucket, then the default. -/
def generateLocalResponse (message : String) (r : Nat) : String :=
  let lowerMessage := jsToLower message
  if strIncludes lowerMessage "hello" || strIncludes lowerMessage "hi" then
    getRandomResponse ["Hey there! 👋", "Hi! How are you?",
      "Hello! Nice to hear from you"] r
  else if strIncludes lowerMessage "how are you" then
    getRandomResponse ["I\u0027m doing great, thanks for asking! 😊",
      "All good here! How about you?", "Pretty good! Hope you\u0027re well too"] r
  else if strIncludes lowerMessage "thank" then
    getRandomResponse ["You\u0027re welcome! 😊", "Anytime!", "Glad I could help!"] r
  else if strIncludes lowerMessage "bye" || strIncludes lowerMessage "goodbye" then
    getRandomResponse ["See you later! 👋", "Take care!", "Talk to you soon!"] r
  else if message.toList.length < 20 then
    getRandomResponse ["Got it! 👍", "I see!", "Interesting!", "Tell me more!"] r
  else
    getRandomResponse ["That sounds good!", "I understand what you mean",
      "Thanks for sharing that", "I appreciate you telling me"] r

/-- `APIManager.generateResponse`: HuggingFace, then Gemini, then the
local pattern matcher.  (The surrounding `try/catch` also lands on the
local matcher; no exception source remains in this embedding.) -/
def generateResponse (hfKey gemKey : Bool) (hfOut gemOut : HttpOutcome)
    (message : String) (r : Nat) : String :=
  match tryHuggingFace hfKey hfOut with
  | some resp => resp
  | none =>
    match tryGoogleGemini gemKey gemOut with
    | some resp => resp
    | none => generateLocalResponse message r

/-! ### Contact-id extraction (`whatsapp.js` adapter and `message-detector.js`) -/

/-- Attempt of the regex `pat([^/?]+)` anchored at the head of `cs`:
succeeds only when `pat` leads and is followed by at least one
character other than `/` and `?`; the capture is the maximal such run. -/
def segAtHead (pat cs : List Char) : Option (List Char) :=
  if leadsWith pat cs then
    let seg := (cs.drop pat.length).takeWhile (fun ch => ch != '/' && ch != '?')
    if seg.isEmpty then none else some seg
  else none

/-- First (leftmost) match of `pat([^/?]+)` inside a string, the search
semantics of JavaScript `String.prototype.match` with a non-global
regex. -/
def findSegAfter (pat : List Char) : List Char → Option (List Char)
  | [] => none
  | c :: cs =>
    match segAtHead pat (c :: cs) with
    | some seg => some seg
    | none => findSegAfter pat cs

/-- `WhatsAppAdapter.extractContactIdFromURL`:
`url.match(/chat\/([^/?]+)/)`, returning the raw captured group. -/
def extractContactIdFromURL (url : String) : Option String :=
  (findSegAfter "chat/".toList url.toList).map String.mk

/-- `WhatsAppAdapter.extractContactIdFromTitle`: a non-placeholder,
non-empty document title is passed through `hashString`. -/
def extractContactIdFromTitle (title : String) : Option String :=
  if title != "" && title != "WhatsApp" && title != "WhatsApp Web" then
    some (hashString title)
  else none

/-- `WhatsAppAdapter.extractContactIdFromElements`: the text of the
first matching contact-header element (exposed here as an optional
input), trimmed, then passed through `hashString`. -/
def extractContactIdFromElements (headerText : Option String) : Option String :=
  match headerText with
  | none => none
  | some t =>
    let text := jsTrim t
    if text != "" then some (hashString text) else none

/-- Page signals visible to `WhatsAppAdapter.getCurrentContactId`:
`window.location.href`, `document.title`, and the text content of the
first matching contact-header element (if any). -/
structure PageState where
  url : String
  title : String
  headerText : Option String
deriving DecidableEq

/-- `WhatsAppAdapter.getCurrentContactId`: URL first, then title, then
contact-header elements.  A truthy (non-empty) result short-circuits;
none of the branches can produce an empty string. -/
def getCurrentContactId (p : PageState) : Option String :=
  match extractContactIdFromURL p.url with
  | some urlContactId => some urlContactId
  | none =>
    match extractContactIdFromTitle p.title with
    | some titleContactId => some titleContactId
    | none => extractContactIdFromElements p.headerText

/-- `MessageDetector.extractContactIdFromPage`: per-platform URL
pattern (raw capture), then a hashed non-placeholder title. -/
def extractContactIdFromPage (platform url title : String) : Option String :=
  let pat : Option (List Char) :=
    if platform == "whatsapp" then some "chat/".toList
    else if platform == "instagram" then some "direct/t/".toList
    else if platform == "telegram" then some "c/".toList
    else none
  match pat.bind (fun ps => findSegAfter ps url.toList) with
  | some seg => some (String.mk seg)
  | none =>
    if title != "" && title != "WhatsApp" && title != "Instagram"
        && title != "Telegram" then
      some (hashString title)
    else none

/-! ### MessageDetector event pipeline (`message-detector.js`)

`handleNewMessage` validates, runs the duplicate check against
`this.messageQueue`, pushes, drains the queue through
`processMessageQueue` (which also evaluates contact changes), and only
then emits `messageReceived`. -/

/-- Payload of a detected message (`{message, contactId, platform, timestamp}`). -/
structure MsgData where
  message : String
  contactId : String
  platform : String
  timestamp : Int
deriving DecidableEq

/-- Mutable fields of `MessageDetector` relevant to the event pipeline.
`lastContactId` starts out `undefined`. -/
structure DetectorState where
  messageQueue : List MsgData
  lastMessageTime : Int
  lastContactId : Option String
deriving DecidableEq

/-- `MessageDetector` field initialisation. -/
def initialDetectorState : DetectorState :=
  { messageQueue := [], lastMessageTime := 0, lastContactId := none }

/-- `MessageDetector.isDuplicateMessage`: filters the queue for entries
with the same contact, identical text, and a timestamp within 5000 ms,
and reports a duplicate only when *more than one* such entry is found. -/
def isDuplicateMessage (queue : List MsgData) (m : MsgData) : Bool :=
  (queue.filter (fun q =>
    q.contactId == m.contactId && q.message == m.message &&
      decide ((q.timestamp - m.timestamp).natAbs < 5000))).length > 1

/-- `MessageDetector.checkForContactChange` for one processed message:
`getCurrentContactId()` is the page-derived id `pageCid`; a truthy id
differing from `lastContactId` updates it and emits `contactChanged`. -/
def checkForContactChange (pageCid : Option String)
    (lastCid : Option String) : Option String × List String :=
  match pageCid with
  | some c =>
    if c != "" && (some c != lastCid : Bool) then (some c, [c]) else (lastCid, [])
  | none => (lastCid, [])

/-- `MessageDetector.processMessageQueue`: shifts every queued message,
records its timestamp in `lastMessageTime`, and checks for a contact
change after each one.  Returns the final `(lastMessageTime,
lastContactId)` pair and all `contactChanged` emissions. -/
def processMessageQueue (pageCid : Option String) :
    List MsgData → Int → Option String → Int × Option String × List String
  | [], lastTime, lastCid => (lastTime, lastCid, [])
  | m :: rest, _, lastCid =>
    let step := checkForContactChange pageCid lastCid
    let tail := processMessageQueue pageCid rest m.timestamp step.1
    (tail.1, tail.2.1, step.2 ++ tail.2.2)

/-- `MessageDetector.handleNewMessage`: validation (JavaScript
truthiness: an empty string fails `if (!message || ...)`), duplicate
suppression, push, queue drain, then the `messageReceived` emission.
Returns the new state, whether `messageReceived` was emitted, and the
`contactChanged` emissions. -/
def handleNewMessage (pageCid : Option String) (s : DetectorState)
    (m : MsgData) : DetectorState × Bool × List String :=
  if m.message == "" || m.contactId == "" || m.platform == "" then
    (s, false, [])
  else if isDuplicateMessage s.messageQueue m then
    (s, false, [])
  else
    let queue := s.messageQueue ++ [m]
    let drained := processMessageQueue pageCid queue s.lastMessageTime s.lastContactId
    ({ messageQueue := [], lastMessageTime := drained.1,
       lastContactId := drained.2.1 }, true, drained.2.2)

/-! ### Content script (`content-script.js`)

`ChatsyContentScript` owns `currentContact`, `conversationContext`, and
forwards suggestion requests to the background script; the response
callback hands the text to `showSuggestions`. -/

/-- Shape of `contact.conversationStyle` as read by the content script
(`conversationStyle.emojiUsage > 0.5`, `formalityLevel > 0.7`). -/
structure ConversationStyle where
  formalityLevel : ℚ
  emojiUsage : ℚ
deriving DecidableEq

/-- Contact object as consumed by the content script
(`contactId`, `platform`, `conversationStyle`). -/
structure Contact where
  contactId : String
  platform : String
  conversationStyle : ConversationStyle
deriving DecidableEq

/-- Modelled from the spec: the default styleProfile that
`ContactManager.getOrCreateContact` assigns on first sight
(src/storage/contact-manager.js is absent from the snapshot; §3 gives
`styleProfile: {formality: float∈[0,1], emojiRate: float∈[0,1]}` with
an unspecified default, taken here to be the midpoint). -/
def defaultStyle : ConversationStyle :=
  { formalityLevel := mkRat 1 2, emojiUsage := mkRat 1 2 }

/-- Modelled from the spec: `ContactManager.getOrCreateContact(contactId,
platform)` — src/storage/contact-manager.js is absent from the
snapshot.  §4.4: "creates with default styleProfile on first sight";
otherwise the stored contact is returned unchanged.  Returns the
contact together with the updated store. -/
def getOrCreateContact (store : List Contact) (cid platform : String) :
    Contact × List Contact :=
  match store.find? (fun c => c.contactId == cid) with
  | some c => (c, store)
  | none =>
    let c : Contact :=
      { contactId := cid, platform := platform, conversationStyle := defaultStyle }
    (c, store ++ [c])

/-- Entry of `this.conversationContext`
(`{type, message, timestamp, contactId}`). -/
structure CtxEntry where
  type : String
  message : String
  timestamp : Int
  contactId : String
deriving DecidableEq

/-- One suggestion of `generateSuggestionOptions`
(`{id, text, type, description}`). -/
structure Suggestion where
  id : String
  text : String
  type : String
  description : String
deriving DecidableEq

/-- Record of one `uiOverlay.showSuggestions(suggestions,
this.currentContact)` call: the suggestions together with the contact
the overlay attributes them to (the *current* contact at delivery). -/
structure ShownEntry where
  attributedContactId : Option String
  suggestions : List Suggestion
deriving DecidableEq

/-- Mutable fields of `ChatsyContentScript` used by the claims, plus
the contact store backing `getOrCreateContact` and the log of overlay
displays. -/
structure ContentState where
  contacts : List Contact
  currentContact : Option Contact
  conversationContext : List CtxEntry
  shown : List ShownEntry
deriving DecidableEq

/-- `ChatsyContentScript` constructor state: no contact, empty context. -/
def initialContentState : ContentState :=
  { contacts := [], currentContact := none, conversationContext := [], shown := [] }

/-- `ChatsyContentScript.handleMessageReceived`: resolve the contact,
push a `received` entry, and trim the context to the last 10 entries
(`splice(0, length - 10)` when the length exceeds 10). -/
def handleMessageReceived (s : ContentState) (d : MsgData) : ContentState :=
  let resolved := getOrCreateContact s.contacts d.contactId d.platform
  let ctx := s.conversationContext ++
    [{ type := "received", message := d.message, timestamp := d.timestamp,
       contactId := d.contactId }]
  let ctx := if 10 < ctx.length then ctx.drop (ctx.length - 10) else ctx
  { s with contacts := resolved.2, currentContact := some resolved.1,
           conversationContext := ctx }

/-- `ChatsyContentScript.handleContactChanged`: resolve the new contact
and clear the conversation context wholesale. -/
def handleContactChanged (s : ContentState) (cid platform : String) : ContentState :=
  let resolved := getOrCreateContact s.contacts cid platform
  { s with contacts := resolved.2, currentContact := some resolved.1,
           conversationContext := [] }

/-- Domain events driving the content script. -/
inductive ContentEvent
  | msgReceived (message contactId platform : String) (timestamp : Int)
  | contactChanged (contactId platform : String)

/-- Dispatch of one domain event to its handler. -/
def stepEvent (s : ContentState) : ContentEvent → ContentState
  | ContentEvent.msgReceived m c p t =>
    handleMessageReceived s { message := m, contactId := c, platform := p, timestamp := t }
  | ContentEvent.contactChanged c p => handleContactChanged s c p

/-- Run of a sequence of domain events. -/
def runEvents (s : ContentState) (es : List ContentEvent) : ContentState :=
  es.foldl stepEvent s

/-- `ChatsyContentScript.buildConversationContext`: the last 5 entries,
rendered and joined with newlines. -/
def buildConversationContext (ctx : List CtxEntry) : String :=
  if ctx.isEmpty then ""
  else
    String.intercalate "\n" ((ctx.drop (ctx.length - 5)).map (fun e =>
      (if e.type == "received" then "Them: " else "You: ") ++ e.message))

/-- Payload of the `GET_AI_RESPONSE` request built by
`generateSuggestions`. -/
structure SuggestionRequest where
  message : String
  context : String
  contactId : String
  platform : String
deriving DecidableEq

/-- `ChatsyContentScript.generateSuggestions`, request half: bail out
without a current contact or with an empty context, pick the last
`received` entry, and build the request sent to the background script.
The request's `contactId` is the contact active at issue time. -/
def buildSuggestionRequest (s : ContentState) : Option SuggestionRequest :=
  match s.currentContact with
  | none => none
  | some c =>
    if s.conversationContext.isEmpty then none
    else
      match (s.conversationContext.filter (fun e => e.type == "received")).getLast? with
      | none => none
      | some lastMessage =>
        some { message := lastMessage.message,
               context := buildConversationContext s.conversationContext,
               contactId := c.contactId, platform := c.platform }

/-- `ChatsyContentScript.addPoliteDelay`: a random softening phrase is
prefixed; the random draw is exposed as the seed `r`. -/
def addPoliteDelay (response : String) (r : Nat) : String :=
  (["Thanks for that! ", "I appreciate you sharing that. ",
    "That\u0027s interesting! ", "I see what you mean. "].getD (r % 4) "") ++ response

/-- `ChatsyContentScript.makeEngaging`: appends " What do you think?"
when the response contains neither `?` nor `!`, then appends " 😊"
when the current contact's `emojiUsage` exceeds 0.5 (an absent contact
or style compares as `undefined > 0.5`, i.e. false). -/
def makeEngaging (response : String) (current : Option Contact) : String :=
  let engaging := response
  let engaging :=
    if !strIncludes response "?" && !strIncludes response "!" then
      engaging ++ " What do you think?"
    else engaging
  let emojiHigh :=
    match current with
    | some c => decide (c.conversationStyle.emojiUsage > mkRat 1 2)
    | none => false
  if emojiHigh then engaging ++ " 😊" else engaging

/-- `ChatsyContentScript.generateSuggestionOptions`: exactly the three
variants pushed by the source (`originalMessage` is accepted and,
as in the source, never used). -/
def generateSuggestionOptions (aiResponse originalMessage : String)
    (current : Option Contact) (r : Nat) : List Suggestion :=
  [{ id := "direct", text := aiResponse, type := "direct",
     description := "Use as is" },
   { id := "polite", text := addPoliteDelay aiResponse r, type := "polite",
     description := "Add polite delay" },
   { id := "engaging", text := makeEngaging aiResponse current, type := "engaging",
     description := "Make more engaging" }]

/-- Response half of `generateSuggestions` together with
`ChatsyContentScript.showSuggestions`: on a successful response the
suggestions are generated against the *current* contact and handed to
the overlay; the request `req` this response answers is never
consulted (no contactId comparison happens at delivery time).  A
failed response only logs. -/
def deliverResponse (s : ContentState) (req : SuggestionRequest)
    (response : Option String) (originalMessage : String) (r : Nat) : ContentState :=
  match response with
  | none => s
  | some aiResponse =>
    { s with shown := s.shown ++
        [{ attributedContactId := s.currentContact.map Contact.contactId,
           suggestions := generateSuggestionOptions aiResponse originalMessage
             s.currentContact r }] }

/-! ### Privacy layer (`privacy-manager.js`): encryption round trip

`encryptData` serialises the record, encrypts it under AES-GCM with a
fresh 12-byte IV and returns `iv ++ ciphertext` as a plain array;
`decryptData` splits the first 12 bytes off, decrypts and parses.  The
Web-Crypto primitive and the JSON codec live outside the repository,
so they are parameters: `prim` is the authenticated cipher, `stringify`
and `parse` the JSON codec for the record type. -/

/-- Authenticated symmetric cipher (`crypto.subtle` AES-GCM):
`enc key iv plain` and `dec key iv cipher`, the latter `none` when
authentication fails (the JavaScript promise rejects). -/
structure CryptoPrimitive where
  enc : List Nat → List Nat → List Nat → List Nat
  dec : List Nat → List Nat → List Nat → Option (List Nat)

/-- A value in `chrome.storage.local`: either the encrypted byte array
or the raw record (the degraded plain-text fallback). -/
inductive StoredValue (α : Type)
  | encrypted (bytes : List Nat)
  | plain (v : α)
deriving DecidableEq

/-- `PrivacyManager.encryptData`: with the crypto primitive and a key
available, returns `Array.from(iv ++ encrypt(key, iv, encode(JSON.stringify(data))))`;
otherwise falls back to returning the data as is. -/
def encryptData {α : Type} (cryptoAvailable : Bool) (prim : CryptoPrimitive)
    (key : Option (List Nat)) (stringify : α → List Nat) (iv : List Nat)
    (data : α) : StoredValue α :=
  match key with
  | some k =>
    if cryptoAvailable then
      StoredValue.encrypted (iv ++ prim.enc k iv (stringify data))
    else StoredValue.plain data
  | none => StoredValue.plain data

/-- `PrivacyManager.decryptData`: with the crypto primitive, a key and
an array input, slices the 12-byte IV off, decrypts and parses; any
failure is caught and the input is returned as is. -/
def decryptData {α : Type} (cryptoAvailable : Bool) (prim : CryptoPrimitive)
    (key : Option (List Nat)) (parse : List Nat → Option α)
    (stored : StoredValue α) : StoredValue α :=
  match stored with
  | StoredValue.plain v => StoredValue.plain v
  | StoredValue.encrypted bytes =>
    match key with
    | some k =>
      if cryptoAvailable then
        let iv := bytes.take 12
        let body := bytes.drop 12
        match prim.dec k iv body with
        | some decrypted =>
          match parse decrypted with
          | some v => StoredValue.plain v
          | none => StoredValue.encrypted bytes
        | none => StoredValue.encrypted bytes
      else StoredValue.encrypted bytes
    | none => StoredValue.encrypted bytes

/-! ### Service worker (`service-worker.js`) -/

/-- One record of the persisted `conversationData` array. -/
structure ConversationRecord where
  contactId : String
  platform : String
  message : String
  response : String
  timestamp : Int
  success : Bool
deriving DecidableEq

/-- `storeConversationData`: push the new record, then
`splice(0, length - 1000)` whenever more than 1000 records are held. -/
def storeConversationData (existing : List ConversationRecord)
    (rec : ConversationRecord) : List ConversationRecord :=
  let conversations := existing ++ [rec]
  if 1000 < conversations.length then
    conversations.drop (conversations.length - 1000)
  else conversations

/-! ## Helper lemmas -/

theorem leadsWith_length {p l : List Char} (h : leadsWith p l = true) :
    p.length ≤ l.length := by
  induction p generalizing l with
  | nil => exact Nat.zero_le _
  | cons x xs ih =>
    cases l with
    | nil => simp [leadsWith] at h
    | cons c cs =>
      simp only [leadsWith, Bool.and_eq_true] at h
      simpa using Nat.succ_le_succ (ih h.2)

theorem hasSub_length {hay needle : List Char} (h : hasSub hay needle = true) :
    needle.length ≤ hay.length := by
  induction hay with
  | nil =>
    simp only [hasSub, List.isEmpty_iff] at h
    simp [h]
  | cons c cs ih =>
    simp only [hasSub, Bool.or_eq_true] at h
    rcases h with h | h
    · exact leadsWith_length h
    · exact Nat.le_trans (ih h) (by simp)

theorem strIncludes_length {s sub : String} (h : strIncludes s sub = true) :
    sub.toList.length ≤ s.toList.length :=
  hasSub_length h

theorem toInt32_bounds (x : Int) : -2 ^ 31 ≤ toInt32 x ∧ toInt32 x < 2 ^ 31 := by
  unfold toInt32
  have h1 : 0 ≤ (x + 2 ^ 31) % 2 ^ 32 := Int.emod_nonneg _ (by norm_num)
  have h2 : (x + 2 ^ 31) % 2 ^ 32 < 2 ^ 32 := Int.emod_lt_of_pos _ (by norm_num)
  constructor <;> omega

theorem hashLoop_bounds (cs : List Nat) (h : Int)
    (hh : -2 ^ 31 ≤ h ∧ h < 2 ^ 31) :
    -2 ^ 31 ≤ hashLoop h cs ∧ hashLoop h cs < 2 ^ 31 := by
  induction cs generalizing h with
  | nil => simpa [hashLoop] using hh
  | cons c rest ih => exact ih _ (toInt32_bounds _)

theorem natToHexCore_length (fuel : Nat) :
    ∀ n acc k, 0 < k → n < 16 ^ k →
      (natToHexCore fuel n acc).length ≤ k + acc.length := by
  induction fuel with
  | zero => intro n acc k _ _; simp [natToHexCore]
  | succ fuel ih =>
    intro n acc k hk hn
    by_cases hlt : n < 16
    · simp only [natToHexCore, if_pos hlt, List.length_cons]
      omega
    · simp only [natToHexCore, if_neg hlt]
      rcases k with _ | k
      · omega
      rcases k with _ | k
      · simp at hn; omega
      have hdiv : n / 16 < 16 ^ (k + 1) := by
        have : n < 16 ^ (k + 1) * 16 := by
          calc n < 16 ^ (k + 2) := hn
          _ = 16 ^ (k + 1) * 16 := by ring
        exact Nat.div_lt_of_lt_mul (by omega)
      have := ih (n / 16) (hexDigit (n % 16) :: acc) (k + 1) (by omega) hdiv
      simp only [List.length_cons] at this
      omega

theorem hashString_length (s : String) : (hashString s).toList.length ≤ 8 := by
  unfold hashString
  by_cases he : s.toList.isEmpty
  · rw [if_pos he]; decide
  · rw [if_neg he]
    have hb := hashLoop_bounds (s.toList.map Char.toNat) 0 (by norm_num)
    have habs : (hashLoop 0 (s.toList.map Char.toNat)).natAbs < 16 ^ 8 := by
      have h1 : (hashLoop 0 (s.toList.map Char.toNat)).natAbs ≤ 2 ^ 31 := by omega
      calc (hashLoop 0 (s.toList.map Char.toNat)).natAbs ≤ 2 ^ 31 := h1
        _ < 16 ^ 8 := by norm_num
    have hlen := natToHexCore_length ((hashLoop 0 (s.toList.map Char.toNat)).natAbs + 1)
      ((hashLoop 0 (s.toList.map Char.toNat)).natAbs) [] 8 (by omega) habs
    simpa [natToHex, String.toList] using hlen

theorem getRandomResponse_mem (responses : List String) (r : Nat)
    (h : responses ≠ []) : getRandomResponse responses r ∈ responses := by
  unfold getRandomResponse
  have hl : 0 < responses.length := List.length_pos.mpr h
  have hm : r % responses.length < responses.length := Nat.mod_lt _ hl
  rw [List.getD_eq_getElem _ _ hm]
  exact List.getElem_mem _

theorem getRandomResponse_ne_empty (responses : List String) (r : Nat)
    (h : responses ≠ []) (h2 : ¬ ("" ∈ responses)) :
    getRandomResponse responses r ≠ "" := by
  intro he
  exact h2 (he ▸ getRandomResponse_mem responses r h)

theorem generateLocalResponse_ne_empty (message : String) (r : Nat) :
    generateLocalResponse message r ≠ "" := by
  unfold generateLocalResponse
  dsimp only
  split
  · apply getRandomResponse_ne_empty <;> decide
  · split
    · apply getRandomResponse_ne_empty <;> decide
    · split
      · apply getRandomResponse_ne_empty <;> decide
      · split
        · apply getRandomResponse_ne_empty <;> decide
        · split
          · apply getRandomResponse_ne_empty <;> decide
          · apply getRandomResponse_ne_empty <;> decide

theorem handleMessageReceived_context_le (s : ContentState) (d : MsgData) :
    (handleMessageReceived s d).conversationContext.length ≤ 10 := by
  unfold handleMessageReceived
  dsimp only
  split
  · rw [List.length_drop]; omega
  · rename_i h
    omega

theorem stepEvent_context_le (s : ContentState) (e : ContentEvent) :
    (stepEvent s e).conversationContext.length ≤ 10 := by
  cases e with
  | msgReceived m c p t => exact handleMessageReceived_context_le s _
  | contactChanged c p => simp [stepEvent, handleContactChanged]

theorem runEvents_context_le (es : List ContentEvent) :
    ∀ s : ContentState, s.conversationContext.length ≤ 10 →
      (runEvents s es).conversationContext.length ≤ 10 := by
  induction es with
  | nil => intro s h; exact h
  | cons e rest ih =>
    intro s h
    exact ih (stepEvent s e) (stepEvent_context_le s e)

/-! ## Claims -/

/-- Claim C2: the spec says the rate limiter delays over-budget calls
and that `checkRateLimit` never throws.  The code instead throws a
`TypeError` on *every* call: `this.requestCount` is the number `0`
after construction, so `.filter` is undefined; and even started from
an array, the method reassigns the field to a number and then spreads
or `push`es it.  This theorem records that every execution of the
embedded `checkRateLimit` ends in an error. -/
theorem C2_checkRateLimit_throws (rc : JSVal) (now : Int) :
    (∃ e, checkRateLimit rc now = Except.error e) ∧
    (∃ e0, checkRateLimit initialRequestCount now = Except.error e0) := by
  constructor
  · cases rc with
    | num n => exact ⟨_, rfl⟩
    | arr xs =>
      unfold checkRateLimit
      dsimp only
      split
      · exact ⟨_, rfl⟩
      · exact ⟨_, rfl⟩
  · exact ⟨_, rfl⟩

/-- Claim C3: the spec says two identical `MessageReceived` detections
for the same contact within 5 seconds collapse to exactly one emitted
event.  In the code, `processMessageQueue` drains `this.messageQueue`
on every message and `isDuplicateMessage` demands *more than one*
prior match, so the suppression can never fire: both detections below
(identical text and contact, 1 second apart) emit `messageReceived`. -/
theorem C3_duplicate_both_emitted :
    let m1 : MsgData :=
      { message := "hey", contactId := "c1", platform := "whatsapp", timestamp := 0 }
    let m2 : MsgData :=
      { message := "hey", contactId := "c1", platform := "whatsapp", timestamp := 1000 }
    let r1 := handleNewMessage (some "c1") initialDetectorState m1
    let r2 := handleNewMessage (some "c1") r1.1 m2
    r1.2.1 = true ∧ r2.2.1 = true ∧
      isDuplicateMessage r1.1.messageQueue m2 = false := by decide

/-- Claim C5: with Provider 1 failing on a non-2xx status and
Provider 2 returning malformed JSON, `generateResponse` returns the
local pattern matcher's result, and that result is a non-empty string
for every input message and every random draw — so the
`AllProvidersExhausted` condition cannot occur on this path. -/
theorem C5_fallback_local_nonempty (hfKey gemKey : Bool) (message : String) (r : Nat) :
    generateResponse hfKey gemKey HttpOutcome.notOk HttpOutcome.malformed message r
      = generateLocalResponse message r ∧
    generateLocalResponse message r ≠ "" := by
  constructor
  · cases hfKey <;> cases gemKey <;> rfl
  · exact generateLocalResponse_ne_empty message r

/-- Claim C6: after every sequence of `handleMessageReceived` /
`handleContactChanged` events from the initial content-script state
the conversation context holds at most 10 entries, and every
`ContactChanged` event replaces the context wholesale by the empty
context. -/
theorem C6_context_bounded_and_reset :
    (∀ es : List ContentEvent,
      (runEvents initialContentState es).conversationContext.length ≤ 10) ∧
    (∀ (s : ContentState) (cid platform : String),
      (handleContactChanged s cid platform).conversationContext = []) := by
  constructor
  · intro es
    exact runEvents_context_le es initialContentState (by simp [initialContentState])
  · intro s cid platform
    rfl

/-- Claim C10: every `storeConversationData` call appends the new
record and trims the array to the 1000 most recent records: the result
is exactly the length-1000 suffix of `existing ++ [rec]` and never
holds more than 1000 records. -/
theorem C10_store_bounded (existing : List ConversationRecord)
    (rec : ConversationRecord) :
    (storeConversationData existing rec).length ≤ 1000 ∧
    storeConversationData existing rec =
      (existing ++ [rec]).drop ((existing ++ [rec]).length - 1000) := by
  unfold storeConversationData
  dsimp only
  split
  · refine ⟨?_, rfl⟩
    rw [List.length_drop]; omega
  · rename_i h
    have h0 : (existing ++ [rec]).length - 1000 = 0 := by omega
    exact ⟨by omega, by rw [h0, List.drop_zero]⟩

/-- Claim C9, counterexample: the claim says the hash output never
contains the raw input as a substring, but `hashString "0" = "30"`,
which contains `"0"`.  (The empty string is an even smaller
counterexample, since every string contains `""`.) -/
theorem C9_counterexample :
    hashString "0" = "30" ∧ strIncludes (hashString "0") "0" = true ∧
      strIncludes (hashString "") "" = true := by decide

/-- Claim C9, amended: the contact-identifier hash is deterministic
(equal inputs give equal outputs), and for every input *longer than 8
characters* the output — at most 8 hexadecimal digits of the absolute
value of a 32-bit integer — never contains the raw input as a
substring.  Inputs of up to 8 characters can reappear in the output,
as the counterexample `"0"` shows. -/
theorem C9_amended (s : String) (h : 8 < s.toList.length) :
    (∀ t, s = t → hashString s = hashString t) ∧
    strIncludes (hashString s) s = false := by
  constructor
  · intro t ht; rw [ht]
  · cases hb : strIncludes (hashString s) s
    · rfl
    · have hlen := strIncludes_length hb
      have hout := hashString_length s
      omega

/-- Claim C9, witness for the amended theorem at the 10-character
input `"alice12345"`. -/
theorem C9_witness :
    hashString "alice12345" = hashString "alice12345" ∧
    strIncludes (hashString "alice12345") "alice12345" = false :=
  ⟨(C9_amended "alice12345" (by decide)).1 "alice12345" rfl,
   (C9_amended "alice12345" (by decide)).2⟩

/-- Claim C8, counterexample: with style `formalityLevel 0.9`,
`emojiUsage 0.8` and base response `"Sounds good"`, the claim says the
"engaging" variant *ends with* `"?"`.  `makeEngaging` appends the
question prompt first and the emoji afterwards, so the variant is
`"Sounds good What do you think? 😊"` and ends with the emoji, not
with `"?"`. -/
theorem C8_counterexample :
    let c : Contact :=
      { contactId := "c1", platform := "whatsapp",
        conversationStyle := { formalityLevel := mkRat 9 10, emojiUsage := mkRat 4 5 } }
    let blank : Suggestion := { id := "", text := "", type := "", description := "" }
    let opts := generateSuggestionOptions "Sounds good" "orig" (some c) 0
    ((opts.getD 2 blank).text = "Sounds good What do you think? 😊") ∧
    strEndsWith (opts.getD 2 blank).text "?" = false := by decide

/-- Claim C8, amended: `generateSuggestionOptions` always produces
exactly 3 variants; in the scenario (formality 0.9, emoji rate 0.8,
base `"Sounds good"`) the "direct" variant equals the base text
unmodified and the "engaging" variant *contains* `"?"` and includes an
emoji — but it ends with the emoji `" 😊"`, not with `"?"`, because
the emoji is appended after the question prompt. -/
theorem C8_amended :
    (∀ (aiResponse originalMessage : String) (current : Option Contact) (r : Nat),
      (generateSuggestionOptions aiResponse originalMessage current r).length = 3) ∧
    (∀ (originalMessage : String) (r : Nat),
      let c : Contact :=
        { contactId := "c1", platform := "whatsapp",
          conversationStyle := { formalityLevel := mkRat 9 10, emojiUsage := mkRat 4 5 } }
      let blank : Suggestion := { id := "", text := "", type := "", description := "" }
      let opts := generateSuggestionOptions "Sounds good" originalMessage (some c) r
      (opts.getD 0 blank).text = "Sounds good" ∧
      (opts.getD 2 blank).text = "Sounds good What do you think? 😊" ∧
      strIncludes (opts.getD 2 blank).text "?" = true ∧
      strIncludes (opts.getD 2 blank).text "😊" = true ∧
      strEndsWith (opts.getD 2 blank).text "😊" = true) := by
  constructor
  · intro aiResponse originalMessage current r; rfl
  · intro originalMessage r
    exact ⟨rfl, rfl, rfl, rfl, rfl⟩

/-- Claim C1, counterexample: on a page whose URL carries the path
segment `chat/alice123`, `WhatsAppAdapter.getCurrentContactId` (and
likewise `MessageDetector.extractContactIdFromPage`) returns the raw
segment `"alice123"` — not its hash — so the identifier extracted from
the URL leaves the adapter unhashed. -/
theorem C1_counterexample :
    getCurrentContactId
      { url := "https://web.whatsapp.com/chat/alice123",
        title := "WhatsApp", headerText := none } = some "alice123" ∧
    hashString "alice123" ≠ "alice123" ∧
    extractContactIdFromPage "whatsapp"
      "https://web.whatsapp.com/chat/alice123" "WhatsApp" = some "alice123" := by decide

/-- Claim C1, amended: identifiers derived from the page title or from
a contact-header element are passed through the one-way hash before
leaving the adapter, but an identifier extracted from the URL path
segment is returned raw: whenever the URL pattern matches,
`getCurrentContactId` returns the captured segment itself, and every
identifier produced with no URL match is a `hashString` image. -/
theorem C1_amended (p : PageState) :
    (∀ s, extractContactIdFromURL p.url = some s → getCurrentContactId p = some s) ∧
    (extractContactIdFromURL p.url = none →
      ∀ r, getCurrentContactId p = some r → ∃ t, r = hashString t) := by
  constructor
  · intro s hs
    unfold getCurrentContactId
    rw [hs]
  · intro hn r hr
    unfold getCurrentContactId at hr
    rw [hn] at hr
    cases ht : extractContactIdFromTitle p.title with
    | some tid =>
      rw [ht] at hr
      unfold extractContactIdFromTitle at ht
      split at ht
      · refine ⟨p.title, ?_⟩
        injection ht with ht2
        injection hr with hr2
        rw [← hr2, ← ht2]
      · exact absurd ht (by simp)
    | none =>
      rw [ht] at hr
      unfold extractContactIdFromElements at hr
      cases hh : p.headerText with
      | none => rw [hh] at hr; exact absurd hr (by simp)
      | some t0 =>
        rw [hh] at hr
        dsimp only at hr
        split at hr
        · refine ⟨jsTrim t0, ?_⟩
          injection hr with hr2
          rw [← hr2]
        · exact absurd hr (by simp)

/-- Claim C1, witness: the amended theorem applied to a page whose URL
matches (raw segment returned) and to a page that resolves through the
title (hash returned). -/
theorem C1_witness :
    getCurrentContactId
      { url := "https://web.whatsapp.com/chat/alice123",
        title := "WhatsApp", headerText := none } = some "alice123" ∧
    ∃ t, hashString "Alice" = hashString t :=
  ⟨(C1_amended
      { url := "https://web.whatsapp.com/chat/alice123",
        title := "WhatsApp", headerText := none }).1 "alice123" (by decide),
   (C1_amended
      { url := "https://web.whatsapp.com/", title := "Alice",
        headerText := none }).2 (by decide) (hashString "Alice") rfl⟩

/-- Claim C4, counterexample: a suggestion request is issued while
contact `Y` is active; a `ContactChanged` to `X` arrives; the request
then resolves.  The claim says the late result is discarded (via a
contactId comparison at delivery time) and never shown — but the
delivery callback appends a shown entry: the result is displayed,
attributed to `X`. -/
theorem C4_counterexample :
    let s0 := handleMessageReceived initialContentState
      { message := "hi", contactId := "Y", platform := "whatsapp", timestamp := 0 }
    let req : SuggestionRequest :=
      { message := "hi", context := "Them: hi", contactId := "Y", platform := "whatsapp" }
    let s1 := handleContactChanged s0 "X" "whatsapp"
    let s2 := deliverResponse s1 req (some "Sure!") "hi" 0
    buildSuggestionRequest s0 = some req ∧
    s1.currentContact.map Contact.contactId = some "X" ∧
    s1.shown = [] ∧
    s2.shown.length = 1 ∧
    s2.shown.map ShownEntry.attributedContactId = [some "X"] := by decide

/-- Claim C4, amended: a late-resolving response is *not* discarded.
For any two distinct contacts, after a message from `Y` produces an
in-flight request targeted at `Y` and a `ContactChanged` switches to
`X`, delivering the response appends the suggestion set to the shown
log, attributed to the contact active at delivery time (`X`); no
contactId comparison is performed against the request. -/
theorem C4_amended (Y X msg aiResponse : String) (r : Nat) (hXY : X ≠ Y) :
    let s0 : ContentState := handleMessageReceived initialContentState
      { message := msg, contactId := Y, platform := "whatsapp", timestamp := 0 }
    let s1 : ContentState := handleContactChanged s0 X "whatsapp"
    ∀ req, buildSuggestionRequest s0 = some req →
      req.contactId = Y ∧
      s1.currentContact.map Contact.contactId = some X ∧
      (deliverResponse s1 req (some aiResponse) msg r).shown =
        s1.shown ++
          [{ attributedContactId := some X,
             suggestions := generateSuggestionOptions aiResponse msg
               s1.currentContact r }] := by
  intro s0 s1 req hreq
  have hbeq : (Y == X) = false := by
    cases hyx : Y == X
    · rfl
    · exact absurd (eq_of_beq hyx).symm hXY
  have hs0 : s0 =
      ContentState.mk
        [Contact.mk Y "whatsapp" defaultStyle]
        (some (Contact.mk Y "whatsapp" defaultStyle))
        [CtxEntry.mk "received" msg 0 Y]
        [] := by
    show handleMessageReceived initialContentState
      (MsgData.mk msg Y "whatsapp" 0) = _
    unfold handleMessageReceived initialContentState getOrCreateContact
    simp
  have hs1 : s1 =
      ContentState.mk
        [Contact.mk Y "whatsapp" defaultStyle, Contact.mk X "whatsapp" defaultStyle]
        (some (Contact.mk X "whatsapp" defaultStyle))
        []
        [] := by
    show handleContactChanged s0 X "whatsapp" = _
    rw [hs0]
    unfold handleContactChanged getOrCreateContact
    simp [List.find?, hbeq]
  have hreq2 : req.contactId = Y := by
    rw [hs0] at hreq
    unfold buildSuggestionRequest at hreq
    simp [buildConversationContext] at hreq
    rw [← hreq]
  refine ⟨hreq2, ?_, ?_⟩
  · rw [hs1]; rfl
  · rw [hs1]; rfl

/-- Claim C4, witness for the amended theorem at `Y`, `X`, the message
`"hi"` and the response `"Sure!"`. -/
theorem C4_witness :
    (SuggestionRequest.mk "hi" "Them: hi" "Y" "whatsapp").contactId = "Y" ∧
    (handleContactChanged
      (handleMessageReceived initialContentState (MsgData.mk "hi" "Y" "whatsapp" 0))
      "X" "whatsapp").currentContact.map Contact.contactId = some "X" :=
  have h := C4_amended "Y" "X" "hi" "Sure!" 0 (by decide)
  have h2 := h (SuggestionRequest.mk "hi" "Them: hi" "Y" "whatsapp") (by decide)
  ⟨h2.1, h2.2.1⟩

/-- Claim C7: provided the crypto primitive and key are available (and
the primitive inverts itself, as AES-GCM does, and the record
JSON-serialises), `decryptData (encryptData R) = R`: the 12-byte nonce
is prepended to the ciphertext by `encryptData` and stripped again by
`decryptData`. -/
theorem C7_encrypt_decrypt_roundtrip {α : Type} (prim : CryptoPrimitive)
    (key : List Nat) (stringify : α → List Nat) (parse : List Nat → Option α)
    (iv : List Nat) (data : α)
    (hiv : iv.length = 12)
    (hdec : ∀ k i m, prim.dec k i (prim.enc k i m) = some m)
    (hparse : parse (stringify data) = some data) :
    decryptData true prim (some key) parse
      (encryptData true prim (some key) stringify iv data) = StoredValue.plain data := by
  unfold encryptData decryptData
  have ht : (iv ++ prim.enc key iv (stringify data)).take 12 = iv := by
    rw [← hiv]; exact List.take_left _ _
  have hd : (iv ++ prim.enc key iv (stringify data)).drop 12 = prim.enc key iv (stringify data) := by
    rw [← hiv]; exact List.drop_left _ _
  simp [ht, hd, hdec, hparse]

/-- Claim C7, witness: the round trip evaluated with a transparent
cipher, the singleton-list JSON codec and a 12-byte IV at the record
`42`. -/
theorem C7_witness :
    decryptData true
      { enc := fun _ _ m => m, dec := fun _ _ c => some c }
      (some []) (fun l => l.head?)
      (encryptData true
        { enc := fun _ _ m => m, dec := fun _ _ c => some c }
        (some []) (fun n => [n]) (List.replicate 12 0) (42 : Nat))
      = StoredValue.plain 42 :=
  C7_encrypt_decrypt_roundtrip _ _ _ _ _ _ (by decide)
    (fun _ _ _ => rfl) rfl
